import Mathlib

/-! Formal model of the amp-video extension component
    (extensions/amp-video/0.1/amp-video.js): a shallow embedding of its
    lifecycle callbacks, attribute propagation, metadata bookkeeping and
    event dispatch, with theorems about the specified behaviour.

    Host primitives that live outside this file (the base element, the URL
    validator, the media-session helper) are modelled from the
    specification; each such definition says so in its doc comment.  -/

/-- DOM attribute map, as an association list from attribute name to value.
A name that is absent models getAttribute returning null. -/
abbrev Attrs := List (String × String)

/-- Models Element.getAttribute: the value of the first binding of the name,
or none (null) when the name is absent. -/
def getAttr (a : Attrs) (n : String) : Option String :=
  match a with
  | [] => none
  | p :: rest => if p.1 = n then some p.2 else getAttr rest n

/-- Models Element.setAttribute: replace the binding of the name, or append it. -/
def setAttr (a : Attrs) (n v : String) : Attrs :=
  match a with
  | [] => [(n, v)]
  | p :: rest => if p.1 = n then (n, v) :: rest else p :: setAttr rest n v

/-- Models Element.removeAttribute. -/
def removeAttr (a : Attrs) (n : String) : Attrs :=
  match a with
  | [] => []
  | p :: rest => if p.1 = n then removeAttr rest n else p :: removeAttr rest n

/-- JavaScript truthiness of a nullable string: null and the empty string
are falsy. -/
def truthy : Option String → Bool
  | none => false
  | some s => s != ""

/-- JavaScript a-or-b over a nullable string, as in `title || ""`: the
fallback is taken when the string is null or empty. -/
def jsOr (a : Option String) (b : String) : String :=
  match a with
  | none => b
  | some s => if s = "" then b else s

/-- ATTRS_TO_PROPAGATE_ON_BUILD from the source. -/
def ATTRS_TO_PROPAGATE_ON_BUILD : List String :=
  ["aria-describedby", "aria-label", "aria-labelledby", "controls",
   "crossorigin", "poster", "controlsList"]

/-- ATTRS_TO_PROPAGATE_ON_LAYOUT from the source; `autoplay` is deliberately
absent (it is managed by the video manager). -/
def ATTRS_TO_PROPAGATE_ON_LAYOUT : List String := ["src", "loop", "preload"]

/-- ATTRS_TO_PROPAGATE from the source: the build-time list concatenated
with the layout-time list. -/
def ATTRS_TO_PROPAGATE : List String :=
  ATTRS_TO_PROPAGATE_ON_BUILD ++ ATTRS_TO_PROPAGATE_ON_LAYOUT

/-- Modelled from the spec: the URL-security validator of the host
(`assertHttpsUrl` in src/url.js, not part of this snapshot); a URL is
secure exactly when it uses the https scheme, that is, its characters
begin with the https scheme marker. -/
def isSecureUrl (u : String) : Bool := u.data.take 6 == "https:".data

/-- Security of a nullable URL: a null URL is not a secure URL. -/
def isSecureUrlOpt : Option String → Bool
  | none => false
  | some u => isSecureUrl u

/-- Modelled from the spec: `assertHttpsUrl` surfaces an assertion failure
to the host for any non-secure source URL, and returns normally otherwise. -/
def assertHttpsUrl (url : Option String) : Except String Unit :=
  if isSecureUrlOpt url then Except.ok () else Except.error "source URL must be secure"

/-- Custom events of the video interface dispatched by the component
(VideoEvents in src/video-interface.js, modelled from the spec: reload,
load, visibility, mute state and forwarded playback state). -/
inductive VideoEvents
  | RELOAD
  | LOAD
  | VISIBILITY (visible : Bool)
  | MUTED
  | UNMUTED
  | PLAYING
  | PAUSE
  | ENDED
deriving DecidableEq, Repr

/-- A child node of the custom element other than the appended video:
text nodes have no getAttribute (isElement is false). -/
structure ChildNode where
  isElement : Bool
  tag : String
  attrs : Attrs
deriving DecidableEq, Repr

/-- A real child node of the custom element: either the video element the
component itself appended at build time, or any other node. -/
inductive RealChild
  | videoRef
  | node (c : ChildNode)
deriving DecidableEq, Repr

/-- The underlying native video element. -/
structure VideoElem where
  attrs : Attrs
  muted : Bool
  paused : Bool
  hasPlay : Bool
  children : List ChildNode
deriving DecidableEq, Repr

/-- The custom amp-video element as the component sees it. -/
structure Elem where
  attrs : Attrs
  realChildren : List RealChild
deriving DecidableEq, Repr

/-- One artwork entry of a media-session metadata record. -/
structure ArtworkItem where
  src : String
deriving DecidableEq, Repr

/-- The media-session metadata record (title, artist, album, artwork). -/
structure Metadata where
  title : String
  artist : String
  album : String
  artwork : List ArtworkItem
deriving DecidableEq, Repr

/-- Modelled from the spec: EMPTY_METADATA from the media-session helper
(src/mediasession-helper.js, not part of this snapshot): the all-empty
metadata record. -/
def EMPTY_METADATA : Metadata :=
  { title := "", artist := "", album := "", artwork := [{ src := "" }] }

/-- The mutable state of an AmpVideo instance: the custom element, the
underlying video element (null before build), the muted mirror and the
metadata record. -/
structure AmpVideoState where
  element : Elem
  video : Option VideoElem
  muted : Bool
  metadata : Metadata
deriving DecidableEq, Repr

/-- Externally visible effects of a callback, in order. -/
inductive Effect
  | preconnectUrl (url : String)
  | setVideoAttr (name value : String)
  | propagate (names : List String)
  | forwardEvents (evts : List VideoEvents)
  | applyFillContent
  | appendVideoToElement
  | registerWithManager
  | toggleFallback (shown : Bool)
  | appendChildToVideo (c : ChildNode)
  | awaitLoadStart
  | dispatch (e : VideoEvents)
  | nativePause
  | nativePlay
deriving DecidableEq, Repr

/-- Modelled from the spec: `propagateAttributes` of the host base element
with removeMissingAttrs set, as used everywhere in this file: each named
attribute is copied from the custom element to the target, and removed
from the target when the custom element lacks it. -/
def propagateAttributes (names : List String) (src : Attrs) (target : Attrs) : Attrs :=
  names.foldl
    (fun t n =>
      match getAttr src n with
      | some v => setAttr t n v
      | none => removeAttr t n)
    target

/-- Modelled from the spec: `elementByTag(element, "source")`, the first
source-tagged element child. -/
def elementByTagSource (children : List RealChild) : Option ChildNode :=
  (children.filterMap
    (fun c =>
      match c with
      | RealChild.videoRef => none
      | RealChild.node n => if n.isElement && n.tag == "source" then some n else none)).head?

/-- getVideoSource_ from the source: the src attribute of the element, or,
when that is falsy, the src attribute of the first source child if any. -/
def getVideoSource_ (e : Elem) : Option String :=
  let videoSrc := getAttr e.attrs "src"
  if truthy videoSrc then videoSrc
  else
    match elementByTagSource e.realChildren with
    | some source => getAttr source.attrs "src"
    | none => videoSrc

/-- preconnectCallback from the source: resolve the video source; when it is
truthy, assert it is a secure URL and preconnect to it. -/
def preconnectCallback (s : AmpVideoState) : Except String (List Effect) := do
  let videoSrc := getVideoSource_ s.element
  if truthy videoSrc then
    assertHttpsUrl videoSrc
    Except.ok [Effect.preconnectUrl (jsOr videoSrc "")]
  else
    Except.ok []

/-- buildCallback from the source: create the video element (whether it has
a native play capability depends on the browser, hence the parameter), set
playsinline, webkit-playsinline and preload, propagate the build-time
attribute list, install event handlers, append the video, and gather the
metadata record from the like-named attributes. -/
def buildCallback (s : AmpVideoState) (videoHasPlay : Bool) :
    AmpVideoState × List Effect :=
  let v0 : VideoElem :=
    { attrs := [], muted := false, paused := true, hasPlay := videoHasPlay,
      children := [] }
  let a1 := setAttr v0.attrs "playsinline" ""
  let a2 := setAttr a1 "webkit-playsinline" ""
  let a3 := setAttr a2 "preload" "none"
  let a4 := propagateAttributes ATTRS_TO_PROPAGATE_ON_BUILD s.element.attrs a3
  let v : VideoElem := { v0 with attrs := a4 }
  let poster := getAttr s.element.attrs "poster"
  let artist := getAttr s.element.attrs "artist"
  let title := getAttr s.element.attrs "title"
  let album := getAttr s.element.attrs "album"
  let artwork := getAttr s.element.attrs "artwork"
  let md : Metadata :=
    { title := jsOr title ""
      artist := jsOr artist ""
      album := jsOr album ""
      artwork := [{ src := jsOr artwork (jsOr poster "") }] }
  let e : Elem :=
    { s.element with realChildren := s.element.realChildren ++ [RealChild.videoRef] }
  ({ s with element := e, video := some v, metadata := md },
   [Effect.setVideoAttr "playsinline" "",
    Effect.setVideoAttr "webkit-playsinline" "",
    Effect.setVideoAttr "preload" "none",
    Effect.propagate ATTRS_TO_PROPAGATE_ON_BUILD,
    Effect.forwardEvents [VideoEvents.PLAYING, VideoEvents.PAUSE, VideoEvents.ENDED],
    Effect.applyFillContent,
    Effect.appendVideoToElement,
    Effect.registerWithManager])

/-- A map of mutated attributes as handed to mutatedAttributesCallback by the
host: attribute name to new value, none meaning the attribute was removed. -/
abbrev Mutations := List (String × Option String)

/-- Lookup in the mutation map; the outer none models an undefined entry. -/
def mutLookup (m : Mutations) (n : String) : Option (Option String) :=
  match m with
  | [] => none
  | p :: rest => if p.1 = n then some p.2 else mutLookup rest n

/-- Models the `mutations[name] !== undefined` test. -/
def mutHas (m : Mutations) (n : String) : Bool :=
  (mutLookup m n).isSome

/-- Models the JavaScript truthiness test `mutations[name]`. -/
def mutTruthy (m : Mutations) (n : String) : Bool :=
  match mutLookup m n with
  | some v => truthy v
  | none => false

/-- mutatedAttributesCallback from the source, invoked with the element
already carrying the mutated attributes: no-op while video_ is null;
otherwise assert a truthy mutated src is secure, propagate the whitelisted
attributes present in the mutations, dispatch RELOAD for a truthy mutated
src, and re-derive the metadata fields whose mutated source attributes are
truthy. -/
def mutatedAttributesCallback (s : AmpVideoState) (mutations : Mutations) :
    Except String (AmpVideoState × List Effect) :=
  match s.video with
  | none => Except.ok (s, [])
  | some v => do
    if mutTruthy mutations "src" then
      assertHttpsUrl (getAttr s.element.attrs "src")
    let attrs := ATTRS_TO_PROPAGATE.filter (fun a => mutHas mutations a)
    let v := { v with attrs := propagateAttributes attrs s.element.attrs v.attrs }
    let effs := [Effect.propagate attrs]
    let effs :=
      if mutTruthy mutations "src" then effs ++ [Effect.dispatch VideoEvents.RELOAD]
      else effs
    let md := s.metadata
    let md :=
      if mutTruthy mutations "artwork" || mutTruthy mutations "poster" then
        { md with
          artwork := [{ src := jsOr (getAttr s.element.attrs "artwork")
                                  (jsOr (getAttr s.element.attrs "poster") "") }] }
      else md
    let md :=
      if mutTruthy mutations "album" then
        { md with album := jsOr (getAttr s.element.attrs "album") "" }
      else md
    let md :=
      if mutTruthy mutations "title" then
        { md with title := jsOr (getAttr s.element.attrs "title") "" }
      else md
    let md :=
      if mutTruthy mutations "artist" then
        { md with artist := jsOr (getAttr s.element.attrs "artist") "" }
      else md
    Except.ok ({ s with video := some v, metadata := md }, effs)

/-- The host applies the mutations to the element attributes before invoking
mutatedAttributesCallback; this composes the two. -/
def applyMutations (e : Elem) (m : Mutations) : Elem :=
  { e with
    attrs := m.foldl
      (fun a p =>
        match p.2 with
        | some v => setAttr a p.1 v
        | none => removeAttr a p.1)
      e.attrs }

/-- The attribute-mutation operation as the host performs it: mutate the
element, then run the callback. -/
def hostMutateAttributes (s : AmpVideoState) (m : Mutations) :
    Except String (AmpVideoState × List Effect) :=
  mutatedAttributesCallback { s with element := applyMutations s.element m } m

/-- viewportCallback from the source: dispatch the VISIBILITY custom event
with the given flag. -/
def viewportCallback (_s : AmpVideoState) (visible : Bool) : List Effect :=
  [Effect.dispatch (VideoEvents.VISIBILITY visible)]

/-- pauseCallback from the source: pause the video when it exists, otherwise
do nothing. -/
def pauseCallback (s : AmpVideoState) : AmpVideoState × List Effect :=
  match s.video with
  | none => (s, [])
  | some v => ({ s with video := some { v with paused := true } }, [Effect.nativePause])

/-- isVideoSupported_ from the source: whether the video element has a play
capability. -/
def isVideoSupported_ (v : VideoElem) : Bool := v.hasPlay

/-- getMetadata from the source. -/
def getMetadata (s : AmpVideoState) : Metadata := s.metadata

/-- One step of the child-migration loop of layoutCallback: the video the
component itself appended is skipped; for any other node, a truthy src on an
element child (a node that has getAttribute) is asserted secure, and then
the node is appended to the video. -/
def layoutChildStep (acc : VideoElem × List Effect) (c : RealChild) :
    Except String (VideoElem × List Effect) :=
  match c with
  | RealChild.videoRef => Except.ok acc
  | RealChild.node n => do
    if n.isElement && truthy (getAttr n.attrs "src") then
      assertHttpsUrl (getAttr n.attrs "src")
    Except.ok
      ({ acc.1 with children := acc.1.children ++ [n] },
       acc.2 ++ [Effect.appendChildToVideo n])

/-- layoutCallback from the source: assert video_ is non-null; when native
playback is unsupported, toggle the fallback UI on and resolve; otherwise
assert a truthy element src is secure, propagate the layout-time attribute
list, migrate the real child nodes into the video (asserting truthy child
src attributes are secure), await the loadstart signal of the video and
then dispatch the LOAD custom event. -/
def layoutCallback (s : AmpVideoState) : Except String (AmpVideoState × List Effect) :=
  match s.video with
  | none => Except.error "dev assertElement failed: video_ is null"
  | some v =>
    if !(isVideoSupported_ v) then
      Except.ok (s, [Effect.toggleFallback true])
    else do
      if truthy (getAttr s.element.attrs "src") then
        assertHttpsUrl (getAttr s.element.attrs "src")
      let v := { v with attrs := propagateAttributes ATTRS_TO_PROPAGATE_ON_LAYOUT s.element.attrs v.attrs }
      let r ← s.element.realChildren.foldlM layoutChildStep
        (v, [Effect.propagate ATTRS_TO_PROPAGATE_ON_LAYOUT])
      let e : Elem :=
        { s.element with
          realChildren := s.element.realChildren.filter (fun c => c = RealChild.videoRef) }
      Except.ok
        ({ s with element := e, video := some r.1 },
         r.2 ++ [Effect.awaitLoadStart, Effect.dispatch VideoEvents.LOAD])

/-- The outcome of the native video.play() call: older browsers return
undefined, newer ones return a promise that eventually settles. -/
inductive NativePlayResult
  | noPromise
  | promise (outcome : Except String Unit)
deriving Repr

/-- Attaching a rejection handler to a settled promise, as ret.catch does:
a rejection is replaced by the handler result, a resolution is unchanged. -/
def promiseCatch (outcome : Except String Unit) (handler : String → Unit) :
    Except String Unit :=
  match outcome with
  | Except.error e => Except.ok (handler e)
  | Except.ok u => Except.ok u

/-- play from the source: call the native play, and when it returned a
promise attach an empty catch, so that no rejection escapes; the method
itself reports no error to its caller. -/
def play (_v : VideoElem) (nativeResult : NativePlayResult) :
    Except String Unit × List Effect :=
  let effs := [Effect.nativePlay]
  match nativeResult with
  | NativePlayResult.noPromise => (Except.ok (), effs)
  | NativePlayResult.promise outcome => (promiseCatch outcome (fun _ => ()), effs)

/-- The volumechange handler installed by installEventHandlers_: when the
muted flag of the video differs from the stored mirror, update the mirror
and dispatch MUTED or UNMUTED according to the new value; otherwise do
nothing. It returns the new mirror value with the dispatched events. -/
def volumechangeHandler (muted_ : Bool) (video : VideoElem) :
    Bool × List Effect :=
  if muted_ != video.muted then
    (video.muted,
     [Effect.dispatch (if video.muted then VideoEvents.MUTED else VideoEvents.UNMUTED)])
  else
    (muted_, [])

/-! Helper lemmas about the attribute map and attribute propagation. -/

theorem getAttr_setAttr_self (a : Attrs) (n v : String) :
    getAttr (setAttr a n v) n = some v := by
  induction a with
  | nil => simp [setAttr, getAttr]
  | cons p rest ih =>
    by_cases h : p.1 = n
    · simp [setAttr, getAttr, h]
    · simp [setAttr, getAttr, h, ih]

theorem getAttr_setAttr_ne (a : Attrs) (n v m : String) (h : m ≠ n) :
    getAttr (setAttr a n v) m = getAttr a m := by
  induction a with
  | nil => simp [setAttr, getAttr, h.symm]
  | cons p rest ih =>
    by_cases hp : p.1 = n
    · simp [setAttr, getAttr, hp, h.symm]
    · by_cases hm : p.1 = m
      · simp [setAttr, getAttr, hp, hm, h]
      · simp [setAttr, getAttr, hp, hm, ih]

theorem getAttr_removeAttr_ne (a : Attrs) (n m : String) (h : m ≠ n) :
    getAttr (removeAttr a n) m = getAttr a m := by
  induction a with
  | nil => simp [removeAttr]
  | cons p rest ih =>
    by_cases hp : p.1 = n
    · have hm : ¬(p.1 = m) := by rw [hp]; exact h.symm
      simp [removeAttr, getAttr, hp, hm, ih, h.symm]
    · by_cases hm : p.1 = m
      · simp [removeAttr, getAttr, hp, hm, h]
      · simp [removeAttr, getAttr, hp, hm, ih]

theorem getAttr_propagateAttributes_not_mem (names : List String) (src target : Attrs)
    (n : String) (h : n ∉ names) :
    getAttr (propagateAttributes names src target) n = getAttr target n := by
  induction names generalizing target with
  | nil => rfl
  | cons m rest ih =>
    have hnm : n ≠ m := by
      intro e; exact h (by simp [e])
    have hrest : n ∉ rest := fun hr => h (List.mem_cons_of_mem _ hr)
    show getAttr ((m :: rest).foldl _ target) n = getAttr target n
    rw [List.foldl_cons]
    cases hsrc : getAttr src m with
    | some v =>
      simp only [hsrc]
      exact (ih _ hrest).trans (getAttr_setAttr_ne _ _ _ _ hnm)
    | none =>
      simp only [hsrc]
      exact (ih _ hrest).trans (getAttr_removeAttr_ne _ _ _ hnm)

/-! Theorems for the easy claims. -/

/-- C2: when native playback is unsupported, layoutCallback toggles the
fallback UI on and resolves, with no propagation, no child migration, no
dispatched event and no error: the state is unchanged and the only effect
is the fallback toggle. -/
theorem layout_unsupported_toggles_fallback (s : AmpVideoState) (v : VideoElem)
    (hv : s.video = some v) (hp : isVideoSupported_ v = false) :
    layoutCallback s = Except.ok (s, [Effect.toggleFallback true]) := by
  simp [layoutCallback, hv, hp]

/-- Witness for C2 at a concrete state whose video lacks a play capability. -/
theorem layout_unsupported_toggles_fallback_witness :
    layoutCallback
      { element := { attrs := [("src", "https://cdn.example.com/v.mp4")], realChildren := [RealChild.videoRef] },
        video := some { attrs := [], muted := false, paused := true, hasPlay := false, children := [] },
        muted := false, metadata := EMPTY_METADATA } =
      Except.ok
        ({ element := { attrs := [("src", "https://cdn.example.com/v.mp4")], realChildren := [RealChild.videoRef] },
           video := some { attrs := [], muted := false, paused := true, hasPlay := false, children := [] },
           muted := false, metadata := EMPTY_METADATA },
         [Effect.toggleFallback true]) :=
  layout_unsupported_toggles_fallback _ _ rfl rfl

/-- C5: play reports no error to its caller: whatever the native play call
returned (no promise, a resolving promise or a rejecting promise), the
rejection is swallowed by the attached empty catch. -/
theorem play_never_propagates_rejection (v : VideoElem) (r : NativePlayResult) :
    (play v r).1 = Except.ok () := by
  cases r with
  | noPromise => rfl
  | promise o => cases o <;> rfl

/-- C7: after the volumechange handler runs, the stored mirror equals the
muted flag of the video, and MUTED or UNMUTED is dispatched exactly when
the flag differed from the mirror (MUTED when the new value is true,
UNMUTED when false); nothing is dispatched when it is unchanged. -/
theorem volumechange_mirrors_muted (muted_ : Bool) (v : VideoElem) :
    (volumechangeHandler muted_ v).1 = v.muted ∧
    (volumechangeHandler muted_ v).2 =
      (if muted_ = v.muted then []
       else [Effect.dispatch (if v.muted then VideoEvents.MUTED else VideoEvents.UNMUTED)]) := by
  by_cases h : muted_ = v.muted <;> simp [volumechangeHandler, h]

/-- C10: before build (video_ still null), mutatedAttributesCallback and
pauseCallback are total no-ops: no error, unchanged state, no effect. -/
theorem mutate_pause_noop_before_build :
    (∀ (s : AmpVideoState) (m : Mutations), s.video = none →
      mutatedAttributesCallback s m = Except.ok (s, [])) ∧
    (∀ s : AmpVideoState, s.video = none → pauseCallback s = (s, [])) := by
  constructor
  · intro s m h
    simp [mutatedAttributesCallback, h]
  · intro s h
    simp [pauseCallback, h]

/-- Witness for C10 at a concrete pre-build state and a concrete mutation map. -/
theorem mutate_pause_noop_before_build_witness :
    mutatedAttributesCallback
      { element := { attrs := [("src", "http://insecure.example.com/v.mp4")], realChildren := [] },
        video := none, muted := false, metadata := EMPTY_METADATA }
      [("src", some "http://insecure.example.com/v.mp4")] =
      Except.ok
        ({ element := { attrs := [("src", "http://insecure.example.com/v.mp4")], realChildren := [] },
           video := none, muted := false, metadata := EMPTY_METADATA }, []) ∧
    pauseCallback
      { element := { attrs := [("src", "http://insecure.example.com/v.mp4")], realChildren := [] },
        video := none, muted := false, metadata := EMPTY_METADATA } =
      ({ element := { attrs := [("src", "http://insecure.example.com/v.mp4")], realChildren := [] },
         video := none, muted := false, metadata := EMPTY_METADATA }, []) :=
  ⟨mutate_pause_noop_before_build.1 _ _ rfl, mutate_pause_noop_before_build.2 _ rfl⟩

/-! Inversion machinery for the layout and mutation callbacks. -/

theorem error_bind {α β : Type} (e : String) (f : α → Except String β) :
    (Except.error e >>= f) = Except.error e := rfl

theorem ok_bind {α β : Type} (a : α) (f : α → Except String β) :
    (Except.ok a >>= f) = f a := rfl

/-- A real child that fails the layout-time security assertion: an element
child carrying a truthy non-secure src attribute. -/
def childBad : RealChild → Bool
  | RealChild.videoRef => false
  | RealChild.node n =>
    n.isElement && truthy (getAttr n.attrs "src") && !(isSecureUrlOpt (getAttr n.attrs "src"))

theorem layoutChildStep_error (c : RealChild) (h : childBad c = true)
    (acc : VideoElem × List Effect) :
    layoutChildStep acc c = Except.error "source URL must be secure" := by
  cases c with
  | videoRef => simp [childBad] at h
  | node n =>
    simp only [childBad, Bool.and_eq_true, Bool.not_eq_true'] at h
    obtain ⟨⟨h1, h2⟩, h3⟩ := h
    simp [layoutChildStep, assertHttpsUrl, h1, h2, h3, error_bind]

theorem layoutChildStep_ok (c : RealChild) (h : childBad c = false)
    (acc : VideoElem × List Effect) :
    layoutChildStep acc c = Except.ok
      (match c with
       | RealChild.videoRef => acc
       | RealChild.node n =>
         ({ acc.1 with children := acc.1.children ++ [n] },
          acc.2 ++ [Effect.appendChildToVideo n])) := by
  cases c with
  | videoRef => rfl
  | node n =>
    by_cases hg : (n.isElement && truthy (getAttr n.attrs "src")) = true
    · have hsec : isSecureUrlOpt (getAttr n.attrs "src") = true := by
        simpa [childBad, hg] using h
      simp [layoutChildStep, assertHttpsUrl, hg, hsec, ok_bind]
    · simp [layoutChildStep, hg, ok_bind]

theorem foldlM_layoutChildStep_error (l : List RealChild) (acc : VideoElem × List Effect)
    (c : RealChild) (hc : c ∈ l) (hbad : childBad c = true) :
    l.foldlM layoutChildStep acc = Except.error "source URL must be secure" := by
  induction l generalizing acc with
  | nil => cases hc
  | cons d rest ih =>
    rw [List.foldlM_cons]
    cases hdb : childBad d with
    | true => rw [layoutChildStep_error d hdb, error_bind]
    | false =>
      rw [layoutChildStep_ok d hdb, ok_bind]
      have hmem : c ∈ rest := by
        rcases List.mem_cons.mp hc with he | hm
        · exfalso
          rw [he, hdb] at hbad
          exact Bool.noConfusion hbad
        · exact hm
      exact ih _ hmem

theorem foldlM_layoutChildStep_ok (l : List RealChild) (acc r : VideoElem × List Effect)
    (h : l.foldlM layoutChildStep acc = Except.ok r) :
    r.1.attrs = acc.1.attrs ∧ r.1.hasPlay = acc.1.hasPlay ∧
    r.1.muted = acc.1.muted ∧ r.1.paused = acc.1.paused ∧
    ∃ ex : List Effect, r.2 = acc.2 ++ ex ∧
      ∀ x ∈ ex, ∃ n : ChildNode, x = Effect.appendChildToVideo n := by
  induction l generalizing acc with
  | nil =>
    rw [List.foldlM_nil] at h
    have hh : Except.ok acc = Except.ok r := h
    injection hh with hh
    subst hh
    exact ⟨rfl, rfl, rfl, rfl, [], by simp, by simp⟩
  | cons d rest ih =>
    rw [List.foldlM_cons] at h
    cases d with
    | videoRef =>
      rw [layoutChildStep_ok RealChild.videoRef rfl, ok_bind] at h
      exact ih _ h
    | node n =>
      cases hdb : childBad (RealChild.node n) with
      | true =>
        rw [layoutChildStep_error _ hdb, error_bind] at h
        exact Except.noConfusion h
      | false =>
        rw [layoutChildStep_ok _ hdb, ok_bind] at h
        obtain ⟨a1, a2, a3, a4, ex, he, hex⟩ := ih _ h
        refine ⟨a1, a2, a3, a4, Effect.appendChildToVideo n :: ex, ?_, ?_⟩
        · rw [he]; simp
        · intro x hx
          rcases List.mem_cons.mp hx with hx1 | hx2
          · exact ⟨n, hx1⟩
          · exact hex x hx2

theorem layoutCallback_ok_inv (s : AmpVideoState) (v : VideoElem) (s2 : AmpVideoState)
    (effs : List Effect) (hv : s.video = some v) (hp : isVideoSupported_ v = true)
    (h : layoutCallback s = Except.ok (s2, effs)) :
    s2.muted = s.muted ∧ s2.metadata = s.metadata ∧
    (∃ v2 : VideoElem, s2.video = some v2 ∧
      v2.attrs = propagateAttributes ATTRS_TO_PROPAGATE_ON_LAYOUT s.element.attrs v.attrs) ∧
    ∃ ex : List Effect,
      effs = Effect.propagate ATTRS_TO_PROPAGATE_ON_LAYOUT ::
             (ex ++ [Effect.awaitLoadStart, Effect.dispatch VideoEvents.LOAD]) ∧
      ∀ x ∈ ex, ∃ n : ChildNode, x = Effect.appendChildToVideo n := by
  rw [layoutCallback, hv] at h
  simp only [hp, Bool.not_true, Bool.false_eq_true, if_false] at h
  by_cases hts : truthy (getAttr s.element.attrs "src") = true
  case pos =>
    simp only [hts, if_true] at h
    by_cases hsec : isSecureUrlOpt (getAttr s.element.attrs "src") = true
    case pos =>
      simp only [assertHttpsUrl, hsec, if_true, ok_bind] at h
      cases hfold : s.element.realChildren.foldlM layoutChildStep
          ({ v with attrs := propagateAttributes ATTRS_TO_PROPAGATE_ON_LAYOUT s.element.attrs v.attrs },
           [Effect.propagate ATTRS_TO_PROPAGATE_ON_LAYOUT]) with
      | error e =>
        rw [hfold, error_bind] at h
        exact Except.noConfusion h
      | ok r =>
        rw [hfold, ok_bind] at h
        injection h with h2
        rw [Prod.mk.injEq] at h2
        obtain ⟨ha, hb⟩ := h2
        subst ha
        subst hb
        obtain ⟨b1, _b2, _b3, _b4, ex, he, hex⟩ := foldlM_layoutChildStep_ok _ _ _ hfold
        refine ⟨rfl, rfl, ⟨r.1, rfl, b1⟩, ex, ?_, hex⟩
        rw [he]
        simp
    case neg =>
      simp only [assertHttpsUrl, hsec, if_false, error_bind] at h
      exact Except.noConfusion h
  case neg =>
    simp only [hts, if_false, ok_bind] at h
    cases hfold : s.element.realChildren.foldlM layoutChildStep
        ({ v with attrs := propagateAttributes ATTRS_TO_PROPAGATE_ON_LAYOUT s.element.attrs v.attrs },
         [Effect.propagate ATTRS_TO_PROPAGATE_ON_LAYOUT]) with
    | error e =>
      rw [hfold, error_bind] at h
      exact Except.noConfusion h
    | ok r =>
      rw [hfold, ok_bind] at h
      injection h with h2
      rw [Prod.mk.injEq] at h2
      obtain ⟨ha, hb⟩ := h2
      subst ha
      subst hb
      obtain ⟨b1, _b2, _b3, _b4, ex, he, hex⟩ := foldlM_layoutChildStep_ok _ _ _ hfold
      refine ⟨rfl, rfl, ⟨r.1, rfl, b1⟩, ex, ?_, hex⟩
      rw [he]
      simp

/-- The metadata record produced by a successful mutatedAttributesCallback:
each field is re-derived exactly when its controlling mutation value is
truthy, and kept otherwise. -/
def mutatedMetadata (s : AmpVideoState) (m : Mutations) : Metadata :=
  { title :=
      if mutTruthy m "title" then jsOr (getAttr s.element.attrs "title") ""
      else s.metadata.title
    artist :=
      if mutTruthy m "artist" then jsOr (getAttr s.element.attrs "artist") ""
      else s.metadata.artist
    album :=
      if mutTruthy m "album" then jsOr (getAttr s.element.attrs "album") ""
      else s.metadata.album
    artwork :=
      if mutTruthy m "artwork" || mutTruthy m "poster" then
        [{ src := jsOr (getAttr s.element.attrs "artwork")
                    (jsOr (getAttr s.element.attrs "poster") "") }]
      else s.metadata.artwork }

theorem mutatedAttributesCallback_some_ok (s : AmpVideoState) (v : VideoElem) (m : Mutations)
    (hv : s.video = some v)
    (hsec : mutTruthy m "src" = true → isSecureUrlOpt (getAttr s.element.attrs "src") = true) :
    mutatedAttributesCallback s m = Except.ok
      ({ s with
         video := some
           { v with attrs := propagateAttributes (ATTRS_TO_PROPAGATE.filter (fun a => mutHas m a))
                               s.element.attrs v.attrs },
         metadata := mutatedMetadata s m },
       Effect.propagate (ATTRS_TO_PROPAGATE.filter (fun a => mutHas m a)) ::
         (if mutTruthy m "src" then [Effect.dispatch VideoEvents.RELOAD] else [])) := by
  rw [mutatedAttributesCallback, hv]
  cases hsrc : mutTruthy m "src" with
  | true =>
    simp only [hsrc, if_true, assertHttpsUrl, hsec hsrc, ok_bind]
    by_cases h1 : (mutTruthy m "artwork" || mutTruthy m "poster") = true <;>
      by_cases h2 : mutTruthy m "album" = true <;>
      by_cases h3 : mutTruthy m "title" = true <;>
      by_cases h4 : mutTruthy m "artist" = true <;>
      simp [mutatedMetadata, h1, h2, h3, h4, hsrc, assertHttpsUrl, hsec hsrc, ok_bind]
  | false =>
    simp only [hsrc, Bool.false_eq_true, if_false, ok_bind]
    by_cases h1 : (mutTruthy m "artwork" || mutTruthy m "poster") = true <;>
      by_cases h2 : mutTruthy m "album" = true <;>
      by_cases h3 : mutTruthy m "title" = true <;>
      by_cases h4 : mutTruthy m "artist" = true <;>
      simp [mutatedMetadata, h1, h2, h3, h4, hsrc]

theorem mutatedAttributesCallback_some_error (s : AmpVideoState) (v : VideoElem) (m : Mutations)
    (hv : s.video = some v) (h1 : mutTruthy m "src" = true)
    (h2 : isSecureUrlOpt (getAttr s.element.attrs "src") = false) :
    mutatedAttributesCallback s m = Except.error "source URL must be secure" := by
  rw [mutatedAttributesCallback, hv]
  simp [h1, assertHttpsUrl, h2, error_bind]

theorem mutatedAttributesCallback_ok_inv (s : AmpVideoState) (v : VideoElem) (m : Mutations)
    (s2 : AmpVideoState) (effs : List Effect) (hv : s.video = some v)
    (h : mutatedAttributesCallback s m = Except.ok (s2, effs)) :
    s2.element = s.element ∧ s2.muted = s.muted ∧
    s2.metadata = mutatedMetadata s m ∧
    s2.video = some
      { v with attrs := propagateAttributes (ATTRS_TO_PROPAGATE.filter (fun a => mutHas m a))
                          s.element.attrs v.attrs } ∧
    effs = Effect.propagate (ATTRS_TO_PROPAGATE.filter (fun a => mutHas m a)) ::
           (if mutTruthy m "src" then [Effect.dispatch VideoEvents.RELOAD] else []) := by
  by_cases hbad : mutTruthy m "src" = true ∧ isSecureUrlOpt (getAttr s.element.attrs "src") = false
  · rw [mutatedAttributesCallback_some_error s v m hv hbad.1 hbad.2] at h
    exact Except.noConfusion h
  · have hsec : mutTruthy m "src" = true → isSecureUrlOpt (getAttr s.element.attrs "src") = true := by
      intro ht
      by_contra hc
      exact hbad ⟨ht, by simpa using hc⟩
    rw [mutatedAttributesCallback_some_ok s v m hv hsec] at h
    injection h with h2
    rw [Prod.mk.injEq] at h2
    obtain ⟨ha, hb⟩ := h2
    subst ha
    subst hb
    exact ⟨rfl, rfl, rfl, rfl, rfl⟩

/-! C1: security assertions on source URLs. -/

/-- Whether an Except value is a success. -/
def exceptIsOk {α : Type} : Except String α → Bool
  | Except.ok _ => true
  | Except.error _ => false

/-- A post-build state whose element carries an empty (hence non-secure) src
attribute and whose video supports native playback. -/
def emptySrcState : AmpVideoState :=
  { element := { attrs := [("src", "")], realChildren := [RealChild.videoRef] },
    video := some { attrs := [], muted := false, paused := true, hasPlay := true, children := [] },
    muted := false, metadata := EMPTY_METADATA }

/-- C1 counterexample: the element src attribute is present and equal to the
empty string, which is not a secure https URL, yet layoutCallback and
preconnectCallback both succeed: the truthiness guards skip the assertion
for an empty source URL. -/
theorem layout_accepts_empty_insecure_src :
    getAttr emptySrcState.element.attrs "src" = some "" ∧
    isSecureUrlOpt (getAttr emptySrcState.element.attrs "src") = false ∧
    exceptIsOk (layoutCallback emptySrcState) = true ∧
    exceptIsOk (preconnectCallback emptySrcState) = true :=
  ⟨rfl, rfl, rfl, rfl⟩

/-- C1 (amended): if the source URL consumed by a lifecycle operation is
truthy (non-null, non-empty) and not a secure https URL, the operation
fails with an assertion failure: preconnectCallback on the resolved source,
layoutCallback on the element src attribute and on every element child
carrying a truthy src attribute, and mutatedAttributesCallback when the
mutations carry a truthy src value. -/
theorem insecure_truthy_src_fails :
    (∀ s : AmpVideoState,
      truthy (getVideoSource_ s.element) = true →
      isSecureUrlOpt (getVideoSource_ s.element) = false →
      preconnectCallback s = Except.error "source URL must be secure") ∧
    (∀ (s : AmpVideoState) (v : VideoElem),
      s.video = some v → isVideoSupported_ v = true →
      truthy (getAttr s.element.attrs "src") = true →
      isSecureUrlOpt (getAttr s.element.attrs "src") = false →
      layoutCallback s = Except.error "source URL must be secure") ∧
    (∀ (s : AmpVideoState) (v : VideoElem) (c : ChildNode),
      s.video = some v → isVideoSupported_ v = true →
      RealChild.node c ∈ s.element.realChildren →
      c.isElement = true →
      truthy (getAttr c.attrs "src") = true →
      isSecureUrlOpt (getAttr c.attrs "src") = false →
      layoutCallback s = Except.error "source URL must be secure") ∧
    (∀ (s : AmpVideoState) (v : VideoElem) (m : Mutations),
      s.video = some v →
      mutTruthy m "src" = true →
      isSecureUrlOpt (getAttr s.element.attrs "src") = false →
      mutatedAttributesCallback s m = Except.error "source URL must be secure") := by
  refine ⟨?_, ?_, ?_, ?_⟩
  · intro s h1 h2
    simp only [preconnectCallback]
    simp [h1, assertHttpsUrl, h2, error_bind]
  · intro s v hv hp h1 h2
    rw [layoutCallback, hv]
    simp [hp, h1, assertHttpsUrl, h2, error_bind]
  · intro s v c hv hp hc hcel hct hcs
    have hbad : childBad (RealChild.node c) = true := by
      simp [childBad, hcel, hct, hcs]
    rw [layoutCallback, hv]
    simp only [hp, Bool.not_true, Bool.false_eq_true, if_false]
    by_cases hts : truthy (getAttr s.element.attrs "src") = true
    · by_cases hsec : isSecureUrlOpt (getAttr s.element.attrs "src") = true
      · simp only [hts, if_true, assertHttpsUrl, hsec, ok_bind]
        rw [foldlM_layoutChildStep_error _ _ _ hc hbad, error_bind]
      · simp [hts, assertHttpsUrl, hsec, error_bind]
    · simp only [hts, Bool.false_eq_true, if_false, ok_bind]
      rw [foldlM_layoutChildStep_error _ _ _ hc hbad, error_bind]
      rfl
  · intro s v m hv h1 h2
    exact mutatedAttributesCallback_some_error s v m hv h1 h2

/-- A post-build state whose element src attribute is a truthy non-https URL. -/
def insecureSrcState : AmpVideoState :=
  { element := { attrs := [("src", "http://insecure.example.com/v.mp4")],
                 realChildren := [RealChild.videoRef] },
    video := some { attrs := [], muted := false, paused := true, hasPlay := true, children := [] },
    muted := false, metadata := EMPTY_METADATA }

/-- An element child carrying a truthy non-https src attribute. -/
def insecureChild : ChildNode :=
  { isElement := true, tag := "source",
    attrs := [("src", "http://insecure.example.com/v.mp4")] }

/-- A post-build state whose only source URL is a truthy non-https src on a
child node. -/
def insecureChildState : AmpVideoState :=
  { element := { attrs := [], realChildren := [RealChild.videoRef, RealChild.node insecureChild] },
    video := some { attrs := [], muted := false, paused := true, hasPlay := true, children := [] },
    muted := false, metadata := EMPTY_METADATA }

/-- Witness for the amended C1 at concrete insecure inputs. -/
theorem insecure_truthy_src_fails_witness :
    preconnectCallback insecureSrcState = Except.error "source URL must be secure" ∧
    layoutCallback insecureSrcState = Except.error "source URL must be secure" ∧
    layoutCallback insecureChildState = Except.error "source URL must be secure" ∧
    mutatedAttributesCallback insecureSrcState
        [("src", some "http://insecure.example.com/v.mp4")] =
      Except.error "source URL must be secure" :=
  ⟨insecure_truthy_src_fails.1 insecureSrcState (by decide) (by decide),
   insecure_truthy_src_fails.2.1 insecureSrcState _ rfl rfl (by decide) (by decide),
   insecure_truthy_src_fails.2.2.1 insecureChildState _ insecureChild rfl rfl (by decide)
     rfl (by decide) (by decide),
   insecure_truthy_src_fails.2.2.2 insecureSrcState _ _ rfl (by decide) (by decide)⟩

/-! C3: the metadata record. -/

/-- The success payload of an Except value, if any. -/
def exceptResult {α : Type} : Except String α → Option α
  | Except.ok a => some a
  | Except.error _ => none

/-- A pre-build state carrying album and title attributes. -/
def albumMetaInput : AmpVideoState :=
  { element := { attrs := [("album", "x"), ("title", "t")], realChildren := [] },
    video := none, muted := false, metadata := EMPTY_METADATA }

/-- The state after buildCallback on albumMetaInput. -/
def albumMetaBuilt : AmpVideoState := (buildCallback albumMetaInput true).1

/-- C3 counterexample: a mutation that removes the album attribute has album
among the mutations, yet mutatedAttributesCallback does not re-derive the
album metadata field (the truthiness guard skips it): the element attribute
is gone, re-derivation would give the empty string, but the stale value x
is kept. -/
theorem mutated_album_removal_keeps_stale_metadata :
    mutHas [("album", (none : Option String))] "album" = true ∧
    (exceptResult (hostMutateAttributes albumMetaBuilt [("album", none)])).map
        (fun r => (getAttr r.1.element.attrs "album", (getMetadata r.1).album)) =
      some (none, "x") ∧
    jsOr (none : Option String) "" ≠ "x" := by
  decide

/-- C3 (amended): after buildCallback the metadata record is derived from
the like-named attributes with empty-string fallbacks, and artwork falls
back from artwork to poster to the empty string; a successful
mutatedAttributesCallback re-derives exactly the fields whose source
attributes carry a truthy mutated value (artwork when the artwork or
poster mutation is truthy), by the same rules. -/
theorem metadata_derivation_rules :
    (∀ (s : AmpVideoState) (hp : Bool),
      getMetadata (buildCallback s hp).1 =
        { title := jsOr (getAttr s.element.attrs "title") ""
          artist := jsOr (getAttr s.element.attrs "artist") ""
          album := jsOr (getAttr s.element.attrs "album") ""
          artwork := [{ src := jsOr (getAttr s.element.attrs "artwork")
                                 (jsOr (getAttr s.element.attrs "poster") "") }] }) ∧
    (∀ (s : AmpVideoState) (v : VideoElem) (m : Mutations) (s2 : AmpVideoState)
        (effs : List Effect),
      s.video = some v →
      mutatedAttributesCallback s m = Except.ok (s2, effs) →
      getMetadata s2 =
        { title :=
            if mutTruthy m "title" then jsOr (getAttr s.element.attrs "title") ""
            else (getMetadata s).title
          artist :=
            if mutTruthy m "artist" then jsOr (getAttr s.element.attrs "artist") ""
            else (getMetadata s).artist
          album :=
            if mutTruthy m "album" then jsOr (getAttr s.element.attrs "album") ""
            else (getMetadata s).album
          artwork :=
            if mutTruthy m "artwork" || mutTruthy m "poster" then
              [{ src := jsOr (getAttr s.element.attrs "artwork")
                          (jsOr (getAttr s.element.attrs "poster") "") }]
            else (getMetadata s).artwork }) := by
  constructor
  · intro s hp
    rfl
  · intro s v m s2 effs hv h
    have hinv := mutatedAttributesCallback_ok_inv s v m s2 effs hv h
    rw [getMetadata, hinv.2.2.1]
    rfl

/-- A post-build state used to witness the amended C3. -/
def titleMutState : AmpVideoState :=
  { element := { attrs := [("title", "T")], realChildren := [RealChild.videoRef] },
    video := some { attrs := [], muted := false, paused := true, hasPlay := true, children := [] },
    muted := false, metadata := EMPTY_METADATA }

/-- The state produced by mutating the title attribute of titleMutState. -/
def titleMutResult : AmpVideoState :=
  { element := { attrs := [("title", "T")], realChildren := [RealChild.videoRef] },
    video := some { attrs := [], muted := false, paused := true, hasPlay := true, children := [] },
    muted := false,
    metadata := { title := "T", artist := "", album := "", artwork := [{ src := "" }] } }

/-- Witness for the amended C3: mutating title to a truthy value re-derives
exactly the title field. -/
theorem metadata_derivation_rules_witness :
    getMetadata titleMutResult =
      { title := "T", artist := "", album := "", artwork := [{ src := "" }] } := by
  have h := metadata_derivation_rules.2 titleMutState
      { attrs := [], muted := false, paused := true, hasPlay := true, children := [] }
      [("title", some "T")] titleMutResult
      [Effect.propagate (ATTRS_TO_PROPAGATE.filter
        (fun a => mutHas [("title", some "T")] a))] rfl rfl
  rw [h]
  decide

/-! C4, C6, C8, C9: propagation whitelists, event ordering and dispatch. -/

/-- Whether an effect is an attribute propagation. -/
def isPropagateEffect : Effect → Bool
  | Effect.propagate _ => true
  | _ => false

/-- A plain post-build state: no element attributes, only the appended video
as real child, a trivial video that supports playback. -/
def plainSupportedState : AmpVideoState :=
  { element := { attrs := [], realChildren := [RealChild.videoRef] },
    video := some { attrs := [], muted := false, paused := true, hasPlay := true, children := [] },
    muted := false, metadata := EMPTY_METADATA }

/-- C4: attribute propagation is restricted to the whitelist: buildCallback
propagates exactly the build-time subset, a successful supported layout
propagates exactly the layout-time subset, a successful
mutatedAttributesCallback propagates exactly the whitelisted attributes
present in the mutations, and an attribute outside the whitelist keeps its
value on the video element across a mutation. -/
theorem propagation_whitelist :
    (∀ (s : AmpVideoState) (hp : Bool),
      (buildCallback s hp).2.filter isPropagateEffect =
        [Effect.propagate ATTRS_TO_PROPAGATE_ON_BUILD]) ∧
    (∀ (s : AmpVideoState) (v : VideoElem) (s2 : AmpVideoState) (effs : List Effect),
      s.video = some v → isVideoSupported_ v = true →
      layoutCallback s = Except.ok (s2, effs) →
      effs.filter isPropagateEffect = [Effect.propagate ATTRS_TO_PROPAGATE_ON_LAYOUT]) ∧
    (∀ (s : AmpVideoState) (v : VideoElem) (m : Mutations) (s2 : AmpVideoState)
        (effs : List Effect),
      s.video = some v →
      mutatedAttributesCallback s m = Except.ok (s2, effs) →
      effs.filter isPropagateEffect =
        [Effect.propagate (ATTRS_TO_PROPAGATE.filter (fun a => mutHas m a))]) ∧
    (∀ (s : AmpVideoState) (v : VideoElem) (m : Mutations) (s2 : AmpVideoState)
        (effs : List Effect) (n : String),
      s.video = some v →
      mutatedAttributesCallback s m = Except.ok (s2, effs) →
      n ∉ ATTRS_TO_PROPAGATE →
      s2.video.map (fun v2 => getAttr v2.attrs n) = some (getAttr v.attrs n)) := by
  refine ⟨?_, ?_, ?_, ?_⟩
  · intro s hp
    rfl
  · intro s v s2 effs hv hp h
    obtain ⟨_, _, _, ex, heffs, hex⟩ := layoutCallback_ok_inv s v s2 effs hv hp h
    have hexf : ex.filter isPropagateEffect = [] := by
      rw [List.filter_eq_nil_iff]
      intro a ha
      obtain ⟨n, rfl⟩ := hex a ha
      simp [isPropagateEffect]
    rw [heffs]
    simp [List.filter_append, hexf, isPropagateEffect]
  · intro s v m s2 effs hv h
    obtain ⟨_, _, _, _, heffs⟩ := mutatedAttributesCallback_ok_inv s v m s2 effs hv h
    rw [heffs]
    cases hsrc : mutTruthy m "src" <;> simp [hsrc, isPropagateEffect]
  · intro s v m s2 effs n hv h hn
    obtain ⟨_, _, _, hvideo, _⟩ := mutatedAttributesCallback_ok_inv s v m s2 effs hv h
    rw [hvideo, Option.map_some']
    refine congrArg some ?_
    exact getAttr_propagateAttributes_not_mem _ _ _ _
      (fun hmem => hn (List.mem_of_mem_filter hmem))

/-- Witness for C4 at concrete inputs: a plain supported layout and a loop
mutation on a plain post-build state. -/
theorem propagation_whitelist_witness :
    ([Effect.propagate ATTRS_TO_PROPAGATE_ON_LAYOUT, Effect.awaitLoadStart,
      Effect.dispatch VideoEvents.LOAD] : List Effect).filter isPropagateEffect =
      [Effect.propagate ATTRS_TO_PROPAGATE_ON_LAYOUT] ∧
    ([Effect.propagate (ATTRS_TO_PROPAGATE.filter
        (fun a => mutHas [("loop", some "")] a))] : List Effect).filter isPropagateEffect =
      [Effect.propagate (ATTRS_TO_PROPAGATE.filter (fun a => mutHas [("loop", some "")] a))] ∧
    plainSupportedState.video.map (fun v2 => getAttr v2.attrs "width") =
      some (getAttr ([] : Attrs) "width") :=
  ⟨propagation_whitelist.2.1 plainSupportedState
      { attrs := [], muted := false, paused := true, hasPlay := true, children := [] }
      plainSupportedState _ rfl rfl rfl,
   propagation_whitelist.2.2.1 plainSupportedState
      { attrs := [], muted := false, paused := true, hasPlay := true, children := [] }
      [("loop", some "")] plainSupportedState _ rfl rfl,
   propagation_whitelist.2.2.2 plainSupportedState
      { attrs := [], muted := false, paused := true, hasPlay := true, children := [] }
      [("loop", some "")] plainSupportedState _ "width" rfl rfl (by decide)⟩

/-- C6: in every successful supported layout, the LOAD custom event is
dispatched only after the one-shot load-start signal of the video has been
awaited, and LOAD is the final effect before the returned promise
resolves. -/
theorem load_dispatched_after_ready :
    ∀ (s : AmpVideoState) (v : VideoElem) (s2 : AmpVideoState) (effs : List Effect),
      s.video = some v → isVideoSupported_ v = true →
      layoutCallback s = Except.ok (s2, effs) →
      ∃ pre : List Effect,
        effs = pre ++ [Effect.awaitLoadStart, Effect.dispatch VideoEvents.LOAD] ∧
        Effect.dispatch VideoEvents.LOAD ∉ pre ∧
        Effect.awaitLoadStart ∉ pre := by
  intro s v s2 effs hv hp h
  obtain ⟨_, _, _, ex, heffs, hex⟩ := layoutCallback_ok_inv s v s2 effs hv hp h
  refine ⟨Effect.propagate ATTRS_TO_PROPAGATE_ON_LAYOUT :: ex, ?_, ?_, ?_⟩
  · rw [heffs]
    simp
  · intro hmem
    rcases List.mem_cons.mp hmem with h1 | h2
    · exact Effect.noConfusion h1
    · obtain ⟨n, hn⟩ := hex _ h2
      exact Effect.noConfusion hn
  · intro hmem
    rcases List.mem_cons.mp hmem with h1 | h2
    · exact Effect.noConfusion h1
    · obtain ⟨n, hn⟩ := hex _ h2
      exact Effect.noConfusion hn

/-- Witness for C6 at a plain supported layout. -/
theorem load_dispatched_after_ready_witness :
    ∃ pre : List Effect,
      ([Effect.propagate ATTRS_TO_PROPAGATE_ON_LAYOUT, Effect.awaitLoadStart,
        Effect.dispatch VideoEvents.LOAD] : List Effect) =
        pre ++ [Effect.awaitLoadStart, Effect.dispatch VideoEvents.LOAD] ∧
      Effect.dispatch VideoEvents.LOAD ∉ pre ∧
      Effect.awaitLoadStart ∉ pre :=
  load_dispatched_after_ready plainSupportedState
    { attrs := [], muted := false, paused := true, hasPlay := true, children := [] }
    plainSupportedState _ rfl rfl rfl

/-- C8 counterexample: a mutation that removes the src attribute has src
among the mutations, yet the successful mutatedAttributesCallback dispatches
no RELOAD (the truthiness guard skips it). -/
theorem reload_skipped_for_removed_src :
    mutHas [("src", (none : Option String))] "src" = true ∧
    (exceptResult (mutatedAttributesCallback plainSupportedState [("src", none)])).map
        (fun r => r.2) = some [Effect.propagate ["src"]] ∧
    Effect.dispatch VideoEvents.RELOAD ∉ ([Effect.propagate ["src"]] : List Effect) := by
  decide

/-- C8 (amended): after build, a successful mutatedAttributesCallback
dispatches RELOAD exactly when the mutations carry a truthy src value, and
viewportCallback always dispatches VISIBILITY with the given flag. -/
theorem reload_iff_truthy_src_and_visibility :
    (∀ (s : AmpVideoState) (v : VideoElem) (m : Mutations) (s2 : AmpVideoState)
        (effs : List Effect),
      s.video = some v →
      mutatedAttributesCallback s m = Except.ok (s2, effs) →
      ((Effect.dispatch VideoEvents.RELOAD ∈ effs) ↔ mutTruthy m "src" = true)) ∧
    (∀ (s : AmpVideoState) (visible : Bool),
      viewportCallback s visible = [Effect.dispatch (VideoEvents.VISIBILITY visible)]) := by
  constructor
  · intro s v m s2 effs hv h
    obtain ⟨_, _, _, _, heffs⟩ := mutatedAttributesCallback_ok_inv s v m s2 effs hv h
    rw [heffs]
    cases hsrc : mutTruthy m "src" <;> simp [hsrc, isPropagateEffect]
  · intro s visible
    rfl

/-- A post-build state with a secure src attribute. -/
def secureSrcState : AmpVideoState :=
  { element := { attrs := [("src", "https://cdn.example.com/v.mp4")],
                 realChildren := [RealChild.videoRef] },
    video := some { attrs := [], muted := false, paused := true, hasPlay := true, children := [] },
    muted := false, metadata := EMPTY_METADATA }

/-- Witness for the amended C8: a truthy secure src mutation dispatches
RELOAD. -/
theorem reload_iff_truthy_src_and_visibility_witness :
    (Effect.dispatch VideoEvents.RELOAD ∈
      ([Effect.propagate (ATTRS_TO_PROPAGATE.filter
          (fun a => mutHas [("src", some "https://cdn.example.com/v.mp4")] a)),
        Effect.dispatch VideoEvents.RELOAD] : List Effect)) ↔
      mutTruthy [("src", some "https://cdn.example.com/v.mp4")] "src" = true :=
  reload_iff_truthy_src_and_visibility.1 secureSrcState
    { attrs := [], muted := false, paused := true, hasPlay := true, children := [] }
    [("src", some "https://cdn.example.com/v.mp4")]
    { element := { attrs := [("src", "https://cdn.example.com/v.mp4")],
                   realChildren := [RealChild.videoRef] },
      video := some { attrs := [("src", "https://cdn.example.com/v.mp4")],
                      muted := false, paused := true, hasPlay := true, children := [] },
      muted := false, metadata := EMPTY_METADATA } _ rfl rfl

/-- C9: the autoplay attribute is never propagated to the video element: it
is absent from the whitelist, the video created at build carries no
autoplay attribute, and layout and mutation callbacks preserve the autoplay
attribute of the video. -/
theorem autoplay_never_propagated :
    ("autoplay" ∉ ATTRS_TO_PROPAGATE) ∧
    (∀ (s : AmpVideoState) (hp : Bool),
      (buildCallback s hp).1.video.map (fun v2 => getAttr v2.attrs "autoplay") = some none) ∧
    (∀ (s : AmpVideoState) (v : VideoElem) (s2 : AmpVideoState) (effs : List Effect),
      s.video = some v →
      layoutCallback s = Except.ok (s2, effs) →
      s2.video.map (fun v2 => getAttr v2.attrs "autoplay") = some (getAttr v.attrs "autoplay")) ∧
    (∀ (s : AmpVideoState) (v : VideoElem) (m : Mutations) (s2 : AmpVideoState)
        (effs : List Effect),
      s.video = some v →
      mutatedAttributesCallback s m = Except.ok (s2, effs) →
      s2.video.map (fun v2 => getAttr v2.attrs "autoplay") = some (getAttr v.attrs "autoplay")) := by
  refine ⟨by decide, ?_, ?_, ?_⟩
  · intro s hp
    have hstep : (buildCallback s hp).1.video = some
        { attrs := propagateAttributes ATTRS_TO_PROPAGATE_ON_BUILD s.element.attrs
            (setAttr (setAttr (setAttr [] "playsinline" "") "webkit-playsinline" "") "preload" "none"),
          muted := false, paused := true, hasPlay := hp, children := [] } := rfl
    rw [hstep, Option.map_some']
    refine congrArg some ?_
    rw [getAttr_propagateAttributes_not_mem _ _ _ _ (by decide),
        getAttr_setAttr_ne _ _ _ _ (by decide),
        getAttr_setAttr_ne _ _ _ _ (by decide),
        getAttr_setAttr_ne _ _ _ _ (by decide)]
    rfl
  · intro s v s2 effs hv h
    cases hps : isVideoSupported_ v with
    | false =>
      rw [layoutCallback, hv] at h
      simp only [hps, Bool.not_false, if_true] at h
      injection h with h2
      rw [Prod.mk.injEq] at h2
      obtain ⟨ha, _⟩ := h2
      subst ha
      rw [hv, Option.map_some']
    | true =>
      obtain ⟨_, _, ⟨v2, hvid, hattrs⟩, _⟩ := layoutCallback_ok_inv s v s2 effs hv hps h
      rw [hvid, Option.map_some']
      refine congrArg some ?_
      rw [hattrs]
      exact getAttr_propagateAttributes_not_mem _ _ _ _ (by decide)
  · intro s v m s2 effs hv h
    obtain ⟨_, _, _, hvid, _⟩ := mutatedAttributesCallback_ok_inv s v m s2 effs hv h
    rw [hvid, Option.map_some']
    refine congrArg some ?_
    exact getAttr_propagateAttributes_not_mem _ _ _ _
      (fun hmem => (by decide : ¬("autoplay" ∈ ATTRS_TO_PROPAGATE)) (List.mem_of_mem_filter hmem))

/-- Witness for C9: a plain supported layout preserves the absent autoplay
attribute of the video. -/
theorem autoplay_never_propagated_witness :
    plainSupportedState.video.map (fun v2 => getAttr v2.attrs "autoplay") =
      some (getAttr ([] : Attrs) "autoplay") :=
  autoplay_never_propagated.2.2.1 plainSupportedState
    { attrs := [], muted := false, paused := true, hasPlay := true, children := [] }
    plainSupportedState _ rfl rfl
